import Mathlib

/-!
Verification of the SENAITE setup-data spreadsheet importer
(`src/senaite/core/exportimport/setupdata/__init__.py`) and of the
analysis-profile widget
(`src/bika/lims/browser/widgets/analysisprofileanalyseswidget.py`).

The Python code is shallowly embedded: worksheet cells become `CellVal`,
persisted content objects become `CObj` records, folders and catalogs become
lists of objects, and Python exceptions become the `PyExc` type, with
`try/except` blocks translated to explicit matches on `Except PyExc`.
-/

namespace SetupData

/-- Value of one worksheet cell as produced by openpyxl and consumed by
`WorksheetImporter.get_rows`.  `none` is a cell with no value (Python `None`);
`str` covers both Python 2 `str` and `unicode` (the importer immediately
encodes `unicode` to UTF-8, which we treat as the identity on the decoded
text); numeric and boolean cells keep their Python type. -/
inductive CellVal where
  | none
  | str (s : String)
  | int (n : Int)
  | bool (b : Bool)
deriving DecidableEq, Repr

/-- Characters stripped by `value.strip(' \t\n\r')` in `get_rows`. -/
def isStripChar (c : Char) : Bool :=
  c == ' ' || c == '\t' || c == '\n' || c == '\r'

/-- Python `value.strip(' \t\n\r')`: remove the listed characters from both
ends of the string. -/
def pyStrip (s : String) : String :=
  ⟨(((s.data.dropWhile isStripChar).reverse.dropWhile isStripChar).reverse)⟩

/-- Per-cell normalisation performed by `WorksheetImporter.get_rows`
(setupdata/__init__.py lines 164-174): `None` becomes `''`; a string
(after UTF-8 encoding of `unicode`) is stripped of leading/trailing
space, tab, newline and carriage return; any other value is kept as is. -/
def normalize_cell : CellVal → CellVal
  | CellVal.none => CellVal.str ""
  | CellVal.str s => CellVal.str (pyStrip s)
  | v => v

/-- Whether a `CellVal` is a string value. -/
def CellVal.isStr : CellVal → Bool
  | CellVal.str _ => true
  | _ => false

/-- Numeric value of a list of decimal digit characters. -/
def natOfDigits (l : List Char) : Nat :=
  l.foldl (fun a c => a * 10 + (c.toNat - Char.toNat '0')) 0

/-- Python `int(s)` on a string: surrounding whitespace is allowed, then an
optional sign followed by one or more decimal digits; anything else raises
`ValueError`, modelled as `none`.  (Only ASCII digits are modelled.) -/
def pyIntOfString (s : String) : Option Int :=
  let t := (((s.data.dropWhile Char.isWhitespace).reverse.dropWhile
      Char.isWhitespace).reverse)
  match t with
  | [] => Option.none
  | '+' :: ds =>
    if ds ≠ [] ∧ ds.all Char.isDigit then some (natOfDigits ds) else Option.none
  | '-' :: ds =>
    if ds ≠ [] ∧ ds.all Char.isDigit then some (-(natOfDigits ds : Int))
    else Option.none
  | ds =>
    if ds.all Char.isDigit then some (natOfDigits ds) else Option.none

/-- Python `value.lower()` (ASCII case folding is modelled). -/
def pyLower (s : String) : String :=
  ⟨s.data.map Char.toLower⟩

/-- `WorksheetImporter.to_bool` (setupdata/__init__.py lines 199-219).
The Python code lowercases the value if possible, re-encodes it, converts it
to `int` if possible, and finally tests `value in ('true', 1)`:
a string therefore yields its integer value compared with 1 when it parses as
an integer, and otherwise is compared with `'true'`; an integer is compared
with 1; a boolean passes through `int()` (`int(True) == 1`); `None` passes
through unchanged and is not in `('true', 1)`. -/
def to_bool : CellVal → Bool
  | CellVal.str s =>
    let sl := pyLower s
    match pyIntOfString sl with
    | some n => n == 1
    | Option.none => sl == "true"
  | CellVal.int n => n == 1
  | CellVal.bool b => b
  | CellVal.none => false

/-- Python exceptions raised or caught by the importer. -/
inductive PyExc where
  | ValueError (msg : String)
  | IOError (msg : String)
  | Exception (msg : String)
deriving DecidableEq, Repr

/-- Python `int(s)` with its exception behaviour: non-numeric strings raise
`ValueError`. -/
def pyInt (s : String) : Except PyExc Int :=
  match pyIntOfString s with
  | some n => Except.ok n
  | Option.none => Except.error (PyExc.ValueError "invalid literal for int()")

/-- Value of a Python float built from a string: a finite value (modelled as
a rational), a signed infinity, or NaN. -/
inductive PyFloat where
  | fin (q : ℚ)
  | inf (negative : Bool)
  | nan
deriving DecidableEq, Repr

/-- Split an optional leading sign; returns (negative?, rest). -/
def splitSign : List Char → Bool × List Char
  | '+' :: r => (false, r)
  | '-' :: r => (true, r)
  | r => (false, r)

/-- Finite float value from integer digits, fractional digits and a decimal
exponent. -/
def decimalValue (negative : Bool) (intPart fracPart : List Char)
    (exp : Int) : PyFloat :=
  let mag : ℚ := (natOfDigits (intPart ++ fracPart) : ℚ)
      / ((10 : ℚ) ^ fracPart.length) * ((10 : ℚ) ^ exp)
  PyFloat.fin (if negative then -mag else mag)

/-- Decimal part of Python `float(s)`: digits with an optional point and an
optional well-formed exponent; any leftover characters make the parse fail. -/
def pyFloatDecimal (negative : Bool) (body : List Char) : Option PyFloat :=
  let intPart := body.takeWhile Char.isDigit
  let rest1 := body.dropWhile Char.isDigit
  let fracPart := match rest1 with
    | '.' :: r => r.takeWhile Char.isDigit
    | _ => []
  let rest2 := match rest1 with
    | '.' :: r => r.dropWhile Char.isDigit
    | r => r
  if intPart = [] ∧ fracPart = [] then Option.none
  else
    match rest2 with
    | [] => some (decimalValue negative intPart fracPart 0)
    | c :: r =>
      if c = 'e' ∨ c = 'E' then
        let (eneg, r2) := splitSign r
        let ds := r2.takeWhile Char.isDigit
        let r3 := r2.dropWhile Char.isDigit
        if ds = [] ∨ r3 ≠ [] then Option.none
        else
          some (decimalValue negative intPart fracPart
            (if eneg then -(natOfDigits ds : Int) else (natOfDigits ds : Int)))
      else Option.none

/-- Python `float(s)` on a string: surrounding whitespace allowed, optional
sign, then `inf`/`infinity`/`nan` (case-insensitive) or a decimal literal;
anything else raises `ValueError`, modelled as `none`. -/
def pyFloatOfString (s : String) : Option PyFloat :=
  let t := (((s.data.dropWhile Char.isWhitespace).reverse.dropWhile
      Char.isWhitespace).reverse)
  let (negative, body) := splitSign t
  let lower := body.map Char.toLower
  if lower = "inf".data ∨ lower = "infinity".data then some (PyFloat.inf negative)
  else if lower = "nan".data then some PyFloat.nan
  else pyFloatDecimal negative body

/-- Python `float(s)` with its exception behaviour. -/
def pyFloat (s : String) : Except PyExc PyFloat :=
  match pyFloatOfString s with
  | some f => Except.ok f
  | Option.none =>
    Except.error (PyExc.ValueError "could not convert string to float")

/-- `WorksheetImporter.to_int` (setupdata/__init__.py lines 221-230):
`try: return int(value); except ValueError: try: return int(default);
except: return 0`.  The outer handler catches only `ValueError`; the inner
bare `except` catches everything. -/
def to_int (value default : String) : Except PyExc Int :=
  match pyInt value with
  | Except.ok n => Except.ok n
  | Except.error (PyExc.ValueError _) =>
    (match pyInt default with
     | Except.ok d => Except.ok d
     | Except.error _ => Except.ok 0)
  | Except.error e => Except.error e

/-- `WorksheetImporter.to_float` (setupdata/__init__.py lines 232-241), with
the same `try/except` structure as `to_int` but over `float`. -/
def to_float (value default : String) : Except PyExc PyFloat :=
  match pyFloat value with
  | Except.ok f => Except.ok f
  | Except.error (PyExc.ValueError _) =>
    (match pyFloat default with
     | Except.ok f => Except.ok f
     | Except.error _ => Except.ok (PyFloat.fin 0))
  | Except.error e => Except.error e

/-- Module-level helper `Float` (setupdata/__init__.py lines 65-70):
`try: f = float(thing); except ValueError: f = 0.0; return f`. -/
def Float (thing : String) : Except PyExc PyFloat :=
  match pyFloat thing with
  | Except.ok f => Except.ok f
  | Except.error (PyExc.ValueError _) => Except.ok (PyFloat.fin 0)
  | Except.error e => Except.error e

/-- Persisted content object, restricted to the attributes the importer
consults: `portal_type`, `Title`/`title`, `getKeyword`, the UID and the
bookkeeping fields set by `Sub_Groups`/`Attachment_Types`. -/
structure CObj where
  uid : String
  portal_type : String
  title : String
  getKeyword : String := ""
  description : String := ""
  sortKey : String := ""
deriving DecidableEq, Repr

/-- Module-level helper `getobj(folder, portal_type, **kw)`
(setupdata/__init__.py lines 86-96): scan the folder contents, keep objects of
the given portal type, and return the first whose attribute (the single
keyword argument used at every call site) equals the wanted value; `None`
when nothing matches.  `attr` selects the attribute named by the keyword. -/
def getobj (folder : List CObj) (portal_type : String) (attr : CObj → String)
    (v : String) : Option CObj :=
  folder.find? (fun o => o.portal_type == portal_type && attr o == v)

/-- One catalog query as built by `WorksheetImporter.get_object`:
`portal_type` always, `title` when a title was given, plus the `getKeyword`
index when passed as a keyword argument. -/
def matchesFilter (o : CObj) (portal_type : String)
    (title kwGetKeyword : Option String) : Bool :=
  o.portal_type == portal_type
    && (match title with | some t => o.title == t | Option.none => true)
    && (match kwGetKeyword with | some k => o.getKeyword == k | Option.none => true)

/-- Result of running a content filter against a catalog (the catalog is the
list of indexed objects; brains are identified with their objects). -/
def contentFilterQuery (catalog : List CObj) (portal_type : String)
    (title kwGetKeyword : Option String) : List CObj :=
  catalog.filter (fun o => matchesFilter o portal_type title kwGetKeyword)

/-- `WorksheetImporter.get_object` (setupdata/__init__.py lines 300-324).
Returns the found object (or `None`) together with the list of messages
logged.  With no title and no keyword arguments the lookup returns `None`
immediately; more than one match logs and returns `None`; zero matches for an
`AnalysisService` triggers a fallback query on `getKeyword=title` whose first
result, if any, is returned; otherwise zero matches logs and returns `None`;
exactly one match returns it. -/
def get_object (catalog : List CObj) (portal_type : String) (title : String)
    (kwGetKeyword : Option String) : Option CObj × List String :=
  if title = "" ∧ kwGetKeyword = Option.none then (Option.none, [])
  else
    let brains := contentFilterQuery catalog portal_type
      (if title = "" then Option.none else some title) kwGetKeyword
    if brains.length > 1 then
      (Option.none, ["More than one object found"])
    else if brains.length = 0 then
      if portal_type = "AnalysisService" then
        match (contentFilterQuery catalog portal_type Option.none
            (some title)).head? with
        | some b => (some b, [])
        | Option.none => (Option.none, ["No objects found"])
      else (Option.none, ["No objects found"])
    else (brains.head?, [])

/-- Character class `[^.^\]]` of the formula-token regex: anything except a
dot, a caret and a closing bracket. -/
def isTokChar (c : Char) : Bool :=
  c ≠ '.' && c ≠ '^' && c ≠ ']'

/-- Left-to-right non-overlapping matching of `re.compile(r"\[([^.^\]]+)]")
.findall(formula)` over a character list.  At each `[` the regex engine takes
the maximal run of class characters, requires it to be non-empty and to be
followed by `]`, and resumes after the `]`; on failure it advances one
character.  The run can never end earlier because `]` is excluded from the
class, so no backtracking arises.  `fuel` only bounds the recursion depth;
every call consumes at least one character, so `fuel = length + 1` is never
exhausted. -/
def findallAux : Nat → List Char → List String
  | 0, _ => []
  | _ + 1, [] => []
  | fuel + 1, '[' :: rest =>
    let tok := rest.takeWhile isTokChar
    let rest2 := rest.dropWhile isTokChar
    (match rest2 with
     | ']' :: tail =>
       if tok = [] then findallAux fuel rest
       else String.mk tok :: findallAux fuel tail
     | _ => findallAux fuel rest)
  | fuel + 1, _ :: rest => findallAux fuel rest

/-- `re.compile(r"\[([^.^\]]+)]").findall(formula)`
(setupdata/__init__.py line 1573). -/
def findall (formula : String) : List String :=
  findallAux (formula.data.length + 1) formula.data

/-- One record appended to `self.lsd.deferred` by `WorksheetImporter.defer`
(setupdata/__init__.py lines 243-244), restricted to the shape used by
`Calculations.Import`: the source field, the destination catalog and the
two-entry destination query. -/
structure DeferredRelation where
  src_field : String
  dest_catalog : String
  query_portal_type : String
  query_getKeyword : String
deriving DecidableEq, Repr

/-- Dependency extraction of `Calculations.Import`
(setupdata/__init__.py lines 1571-1591): scan the formula for bracketed
tokens, drop the ones equal to an interim-field keyword of this calculation,
and defer one `DependentServices` lookup per remaining token against the
setup catalog on `getKeyword`. -/
def calcDeferred (formula : String) (interim_keys : List String) :
    List DeferredRelation :=
  let keywords := findall formula
  let dep_keywords := keywords.filter (fun k => !(interim_keys.contains k))
  dep_keywords.map (fun kw =>
    { src_field := "DependentServices"
      dest_catalog := "senaite_catalog_setup"
      query_portal_type := "AnalysisService"
      query_getKeyword := kw })

/-- One data row of the `Sub Groups` sheet (columns used by
`Sub_Groups.Import`), after cell normalisation. -/
structure SubGroupRow where
  title : String
  description : String
  SortKey : String
deriving DecidableEq, Repr

/-- One step of the `Sub_Groups.Import` loop (setupdata/__init__.py lines
331-343) on the subgroups folder: skip the row when the title is empty or an
object of type `SubGroup` with that `Title` already exists in the folder,
otherwise create the object and set its fields.  The generated id is not
modelled (`uid = ""`). -/
def subGroupsStep (folder : List CObj) (row : SubGroupRow) : List CObj :=
  if row.title = "" then folder
  else if (getobj folder "SubGroup" CObj.title row.title).isSome then folder
  else folder ++ [{ uid := "", portal_type := "SubGroup", title := row.title,
                    description := row.description, sortKey := row.SortKey }]

/-- `Sub_Groups.Import` over all rows of the sheet. -/
def subGroupsImport (folder : List CObj) (rows : List SubGroupRow) :
    List CObj :=
  rows.foldl subGroupsStep folder

/-- One data row of the `Attachment Types` sheet (columns used by
`Attachment_Types.Import`). -/
structure AttachmentTypeRow where
  title : String
  description : String
deriving DecidableEq, Repr

/-- One step of the `Attachment_Types.Import` loop (setupdata/__init__.py
lines 2323-2333): skip the row when the title is empty, otherwise create an
`AttachmentType` object — the loop performs no lookup for an existing object
with the same title before creating. -/
def attachmentTypesStep (folder : List CObj) (row : AttachmentTypeRow) :
    List CObj :=
  if row.title = "" then folder
  else folder ++ [{ uid := "", portal_type := "AttachmentType",
                    title := row.title, description := row.description }]

/-- `Attachment_Types.Import` over all rows of the sheet. -/
def attachmentTypesImport (folder : List CObj) (rows : List AttachmentTypeRow) :
    List CObj :=
  rows.foldl attachmentTypesStep folder

/-- One data row of a relation sheet (`AnalysisService Methods` /
`AnalysisService Instruments`): the service it belongs to and the value of
the title column (`Method_title` / `Instrument_title`). -/
structure RelRow where
  service_title : String
  column_value : String
deriving DecidableEq, Repr

/-- Loop body of `Analysis_Services.get_relations` (setupdata/__init__.py
lines 1726-1737): a row with an empty `Service_title` returns the accumulated
list at once; rows for another service are skipped; otherwise the object named
by the column is looked up with `get_object` and appended unless it is the
default object itself. -/
def get_relations_go (catalog : List CObj) (obj_type service_title : String)
    (default_obj : Option CObj) : List RelRow → List CObj → List CObj
  | [], out => out
  | row :: rest, out =>
    if row.service_title = "" then out
    else if row.service_title ≠ service_title then
      get_relations_go catalog obj_type service_title default_obj rest out
    else
      match (get_object catalog obj_type row.column_value Option.none).fst with
      | some obj =>
        if (match default_obj with
            | some d => d.uid == obj.uid
            | Option.none => false) then
          get_relations_go catalog obj_type service_title default_obj rest out
        else
          get_relations_go catalog obj_type service_title default_obj rest
            (out ++ [obj])
      | Option.none =>
        get_relations_go catalog obj_type service_title default_obj rest out

/-- `Analysis_Services.get_relations` (setupdata/__init__.py lines
1714-1737): start from the default object when there is one, return that list
when the relation sheet is absent, and otherwise fold over its rows. -/
def get_relations (catalog : List CObj) (obj_type service_title : String)
    (default_obj : Option CObj) (sheet : Option (List RelRow)) : List CObj :=
  let out_objects := match default_obj with
    | some d => [d]
    | Option.none => []
  match sheet with
  | Option.none => out_objects
  | some rows =>
    get_relations_go catalog obj_type service_title default_obj rows out_objects

/-- Instrument-related values computed for one `Analysis Services` row. -/
structure ServiceInstrumentFlags where
  defaultinstrument : Option CObj
  instruments : List CObj
  instrumentEntryOfResults : Bool
  manualEntryOfResults : CellVal
deriving Repr

/-- Instrument resolution of `Analysis_Services.Import` (setupdata/__init__.py
lines 1810-1819): the default instrument is looked up by `Title` in the
instruments folder; `get_instruments` (delegating to `get_relations` with the
`AnalysisService Instruments` sheet) produces the instrument list;
`InstrumentEntryOfResults` is true exactly when that list is non-empty; when
no default was declared the first relation becomes the default; and
`ManualEntryOfResults` is forced to `True` when instrument entry is off,
otherwise the raw cell value is used. -/
def serviceInstrumentFlags (inst_folder catalog : List CObj)
    (sheet : Option (List RelRow)) (row_title default_instrument_title : String)
    (rowManualEntry : CellVal) : ServiceInstrumentFlags :=
  let defaultinstrument :=
    getobj inst_folder "Instrument" CObj.title default_instrument_title
  let instruments :=
    get_relations catalog "Instrument" row_title defaultinstrument sheet
  let allowinstrentry := decide (instruments ≠ [])
  let defaultinstrument' :=
    if defaultinstrument.isNone ∧ instruments ≠ [] then instruments.head?
    else defaultinstrument
  let allowmanualentry :=
    if ¬ allowinstrentry then CellVal.bool true else rowManualEntry
  { defaultinstrument := defaultinstrument'
    instruments := instruments
    instrumentEntryOfResults := allowinstrentry
    manualEntryOfResults := allowmanualentry }

/-- One data row of the `Invoice Batches` sheet. -/
structure InvoiceBatchRow where
  title : String
  start : String
  «end» : String
deriving DecidableEq, Repr

/-- One `InvoiceBatch` object; a freshly created one has all fields unset. -/
structure InvoiceBatchObj where
  title : String := ""
  start : String := ""
  «end» : String := ""
deriving DecidableEq, Repr

/-- One iteration of `Invoice_Batches.Import` (setupdata/__init__.py lines
2555-2572): the `InvoiceBatch` object is created in the invoices folder
first, then the three required fields are validated — an empty one raises an
`Exception` naming the field, leaving the fresh object behind — and only then
are the fields set.  Returns the folder and the raised exception, if any. -/
def importInvoiceRow (folder : List InvoiceBatchObj) (row : InvoiceBatchRow) :
    List InvoiceBatchObj × Option PyExc :=
  let folder1 := folder ++ [{ title := "", start := "", «end» := "" }]
  if row.title = "" then
    (folder1, some (PyExc.Exception "InvoiceBatch has no Title"))
  else if row.start = "" then
    (folder1, some (PyExc.Exception "InvoiceBatch has no Start Date"))
  else if row.«end» = "" then
    (folder1, some (PyExc.Exception "InvoiceBatch has no End Date"))
  else
    (folder ++ [{ title := row.title, start := row.start, «end» := row.«end» }],
      Option.none)

/-- `Invoice_Batches.Import` over the sheet rows; an exception aborts the
loop immediately. -/
def invoiceBatchesImport (folder : List InvoiceBatchObj) :
    List InvoiceBatchRow → List InvoiceBatchObj × Option PyExc
  | [] => (folder, Option.none)
  | row :: rest =>
    match importInvoiceRow folder row with
    | (f, some e) => (f, some e)
    | (f, Option.none) => invoiceBatchesImport f rest

/-- Exception handling of `WorksheetImporter.__call__` around `self.Import()`
(setupdata/__init__.py lines 128-137): only `IOError` is caught (and logged);
every other exception propagates to the caller and aborts the run. -/
def importerCall (result : List InvoiceBatchObj × Option PyExc) :
    List InvoiceBatchObj × Option PyExc :=
  match result.snd with
  | some (PyExc.IOError _) => (result.fst, Option.none)
  | _ => result

/-- Value of `form.get("Hidden", {}).get(uid, "")` for
`AnalysisProfileAnalysesWidget.process_form`: the form's `Hidden` mapping is
an association list from service UID to the submitted value. -/
def formHidden (hidden : List (String × String)) (uid : String) : String :=
  match hidden.find? (fun p => p.fst == uid) with
  | some p => p.snd
  | Option.none => ""

/-- `AnalysisProfileAnalysesWidget.process_form`
(analysisprofileanalyseswidget.py lines 290-317).  Services are represented
by their UIDs: `api.get_object_by_uid` and `api.get_uid` are the two
directions of the identity correspondence between a persisted service and its
UID, and `getServiceDependencies` — defined outside this excerpt — is the
parameter `deps`.  The selected services and all their dependencies are
merged into a set (modelled as a deduplicated list); one
`AnalysisServicesSettings` entry is built per service in the set, with
`hidden` true exactly when the form's `Hidden` value for that UID is `"on"`;
the UID list of the set is returned. -/
def process_form (deps : String → List String) (service_uids : List String)
    (hidden_services : List (String × String)) :
    List String × List (String × Bool) :=
  let services := service_uids
  let dependencies := (services.map deps).flatten
  let merged := (services ++ dependencies).dedup
  let as_settings := merged.map (fun u => (u, formHidden hidden_services u == "on"))
  (merged, as_settings)

/-! Helper lemmas. -/

theorem head?_dropWhile_not (p : α → Bool) (l : List α) (c : α)
    (h : (l.dropWhile p).head? = some c) : p c = false := by
  induction l with
  | nil => simp [List.dropWhile_nil] at h
  | cons a t ih =>
    rw [List.dropWhile_cons] at h
    by_cases ha : p a
    · rw [if_pos ha] at h
      exact ih h
    · rw [if_neg ha, List.head?_cons, Option.some.injEq] at h
      rw [← h]
      exact Bool.of_not_eq_true ha

theorem getLast?_dropWhile (p : α → Bool) (x : List α)
    (h : x.dropWhile p ≠ []) : (x.dropWhile p).getLast? = x.getLast? := by
  induction x with
  | nil => simp [List.dropWhile_nil] at h
  | cons a t ih =>
    rw [List.dropWhile_cons] at h ⊢
    by_cases hpa : p a
    · rw [if_pos hpa] at h ⊢
      have ht : t ≠ [] := by
        intro he
        rw [he, List.dropWhile_nil] at h
        exact h rfl
      rw [ih h]
      cases t with
      | nil => exact absurd rfl ht
      | cons b u => rw [List.getLast?_cons_cons]
    · rw [if_neg hpa]

theorem all_takeWhile (p : α → Bool) (l : List α) :
    (l.takeWhile p).all p = true := by
  rw [List.all_eq_true]
  intro x hx
  exact List.mem_takeWhile_imp hx

theorem pyStrip_data (s : String) :
    (pyStrip s).data =
      ((s.data.dropWhile isStripChar).reverse.dropWhile isStripChar).reverse :=
  rfl

/-- Decomposition behind `pyStrip`: the original character list is the
stripped core surrounded by runs of stripped characters. -/
theorem pyStrip_decomposition (s : String) :
    ∃ pre suf : List Char, s.data = pre ++ (pyStrip s).data ++ suf
      ∧ pre.all isStripChar = true ∧ suf.all isStripChar = true := by
  refine ⟨s.data.takeWhile isStripChar,
    ((s.data.dropWhile isStripChar).reverse.takeWhile isStripChar).reverse,
    ?_, all_takeWhile _ _, ?_⟩
  · rw [pyStrip_data]
    conv_lhs => rw [← List.takeWhile_append_dropWhile isStripChar s.data]
    rw [List.append_assoc]
    congr 1
    conv_lhs => rw [← List.reverse_reverse (s.data.dropWhile isStripChar)]
    conv_lhs =>
      rw [← List.takeWhile_append_dropWhile isStripChar
        (s.data.dropWhile isStripChar).reverse]
    rw [List.reverse_append]
  · rw [List.all_eq_true]
    intro x hx
    rw [List.mem_reverse] at hx
    exact List.mem_takeWhile_imp hx

/-- The stripped string neither starts nor ends with a stripped character. -/
theorem pyStrip_ends (s : String) :
    ((pyStrip s).data.head?.all (fun c => !isStripChar c)) = true
      ∧ ((pyStrip s).data.getLast?.all (fun c => !isStripChar c)) = true := by
  rw [pyStrip_data]
  constructor
  · rw [List.head?_reverse]
    by_cases hne :
        (s.data.dropWhile isStripChar).reverse.dropWhile isStripChar = []
    · rw [hne]
      rfl
    · rw [getLast?_dropWhile _ _ hne, List.getLast?_reverse]
      cases hh : (s.data.dropWhile isStripChar).head? with
      | none => rfl
      | some c =>
        rw [Option.all_some]
        rw [head?_dropWhile_not isStripChar s.data c hh]
        rfl
  · rw [List.getLast?_reverse]
    cases hh :
        ((s.data.dropWhile isStripChar).reverse.dropWhile isStripChar).head? with
    | none => rfl
    | some c =>
      rw [Option.all_some]
      rw [head?_dropWhile_not isStripChar (s.data.dropWhile isStripChar).reverse
        c hh]
      rfl

/-- C7 counterexample: `get_rows` does not coerce every cell value to text —
a numeric cell is passed through unchanged, not turned into a string. -/
theorem normalize_cell_int_cex :
    normalize_cell (CellVal.int 5) = CellVal.int 5
      ∧ (normalize_cell (CellVal.int 5)).isStr = false := by
  exact ⟨rfl, rfl⟩

/-- C7 (amended): in `get_rows`, absent (`None`) cells become the empty
string and string cells have leading/trailing space, tab, newline and
carriage-return characters stripped (only such characters are removed, and
the result neither starts nor ends with one); non-string cell values (ints,
booleans) are passed through unchanged rather than coerced to text. -/
theorem normalize_cell_amended :
    normalize_cell CellVal.none = CellVal.str ""
      ∧ (∀ s, normalize_cell (CellVal.str s) = CellVal.str (pyStrip s))
      ∧ (∀ n, normalize_cell (CellVal.int n) = CellVal.int n)
      ∧ (∀ b, normalize_cell (CellVal.bool b) = CellVal.bool b)
      ∧ (∀ s, ∃ pre suf : List Char,
          s.data = pre ++ (pyStrip s).data ++ suf
            ∧ pre.all isStripChar = true ∧ suf.all isStripChar = true)
      ∧ (∀ s, ((pyStrip s).data.head?.all (fun c => !isStripChar c)) = true
          ∧ ((pyStrip s).data.getLast?.all (fun c => !isStripChar c)) = true) := by
  exact ⟨rfl, fun _ => rfl, fun _ => rfl, fun _ => rfl,
    pyStrip_decomposition, pyStrip_ends⟩

/-- C4 counterexample: `to_bool` maps the string `"on"` to `False`, because
the final membership test in the source is `value in ('true', 1)` and `"on"`
is neither. -/
theorem to_bool_on_cex : to_bool (CellVal.str "on") = false := by
  decide

/-- C4 (amended): `to_bool` returns true exactly when the value lowercases
to the string `"true"` (so `"TRUE"` in any letter case), or converts to the
integer 1 (the integer `1`, the boolean `True`, or a numeric string such as
`"1"`); it returns false for everything else — including the string `"on"`,
the empty string, and `None`-valued cells. -/
theorem to_bool_amended :
    to_bool (CellVal.str "TRUE") = true
      ∧ to_bool (CellVal.str "tRuE") = true
      ∧ to_bool (CellVal.int 1) = true
      ∧ to_bool (CellVal.bool true) = true
      ∧ to_bool (CellVal.str "1") = true
      ∧ to_bool (CellVal.str "on") = false
      ∧ to_bool (CellVal.str "") = false
      ∧ to_bool CellVal.none = false
      ∧ (∀ v, to_bool v =
          (match v with
           | CellVal.str s =>
             (pyLower s == "true") || (pyIntOfString (pyLower s) == some 1)
           | CellVal.int n => n == 1
           | CellVal.bool b => b
           | CellVal.none => false)) := by
  refine ⟨by decide, by decide, by decide, by decide, by decide, by decide,
    by decide, by decide, ?_⟩
  intro v
  cases v with
  | none => rfl
  | int n => rfl
  | bool b => rfl
  | str s =>
    show (match pyIntOfString (pyLower s) with
          | some n => n == 1
          | Option.none => pyLower s == "true") = _
    cases h : pyIntOfString (pyLower s) with
    | none => simp [h]
    | some n =>
      by_cases ht : pyLower s = "true"
      · rw [ht] at h
        have h0 : pyIntOfString "true" = Option.none := by decide
        rw [h0] at h
        exact Option.noConfusion h
      · have hb : (pyLower s == "true") = false := beq_false_of_ne ht
        simp [h, hb]

/-- C8: for string inputs the numeric coercion helpers never raise — `to_int`
returns the parsed value, else the parsed default, else 0; `to_float`
likewise with 0.0; and the module-level `Float` returns the parsed value or
0.0.  (Python `int`/`float` on a string can only raise `ValueError`, which
the handlers catch.) -/
theorem numeric_coercion_total (v d : String) :
    to_int v d = Except.ok ((pyIntOfString v).getD ((pyIntOfString d).getD 0))
      ∧ to_float v d =
        Except.ok ((pyFloatOfString v).getD
          ((pyFloatOfString d).getD (PyFloat.fin 0)))
      ∧ Float v = Except.ok ((pyFloatOfString v).getD (PyFloat.fin 0)) := by
  refine ⟨?_, ?_, ?_⟩
  · cases hv : pyIntOfString v with
    | some n => simp [to_int, pyInt, hv]
    | none =>
      cases hd : pyIntOfString d with
      | some m => simp [to_int, pyInt, hv, hd]
      | none => simp [to_int, pyInt, hv, hd]
  · cases hv : pyFloatOfString v with
    | some f => simp [to_float, pyFloat, hv]
    | none =>
      cases hd : pyFloatOfString d with
      | some g => simp [to_float, pyFloat, hv, hd]
      | none => simp [to_float, pyFloat, hv, hd]
  · cases hv : pyFloatOfString v with
    | some f => simp [Float, pyFloat, hv]
    | none => simp [Float, pyFloat, hv]

/-- C3: `Calculations.Import` scans the formula for bracket-delimited tokens,
treats tokens equal to a declared interim-field keyword of the calculation as
local inputs, and registers one deferred `DependentServices` relation against
the setup catalog (querying `portal_type=AnalysisService`,
`getKeyword=token`) for each remaining token; in particular the formula
`"[WEIGHT] + [DENSITY]"` with interim field `WEIGHT` defers exactly one
lookup, for `DENSITY`. -/
theorem calculations_dependency_extraction :
    calcDeferred "[WEIGHT] + [DENSITY]" ["WEIGHT"] =
      [{ src_field := "DependentServices",
         dest_catalog := "senaite_catalog_setup",
         query_portal_type := "AnalysisService",
         query_getKeyword := "DENSITY" }]
    ∧ (∀ formula interim_keys r, r ∈ calcDeferred formula interim_keys ↔
        (r.src_field = "DependentServices"
          ∧ r.dest_catalog = "senaite_catalog_setup"
          ∧ r.query_portal_type = "AnalysisService"
          ∧ r.query_getKeyword ∈ findall formula
          ∧ r.query_getKeyword ∉ interim_keys))
    ∧ (∀ formula interim_keys,
        (calcDeferred formula interim_keys).length =
          ((findall formula).filter
            (fun k => !(interim_keys.contains k))).length) := by
  refine ⟨by decide, ?_, ?_⟩
  · intro formula interim_keys r
    rw [calcDeferred, List.mem_map]
    constructor
    · rintro ⟨kw, hkw, rfl⟩
      rw [List.mem_filter] at hkw
      refine ⟨rfl, rfl, rfl, hkw.1, ?_⟩
      intro hm
      have h2 := hkw.2
      simp [List.contains, List.elem_iff] at h2
      exact h2 hm
    · rintro ⟨h1, h2, h3, h4, h5⟩
      refine ⟨r.query_getKeyword, ?_, ?_⟩
      · rw [List.mem_filter]
        refine ⟨h4, ?_⟩
        simp [List.contains, List.elem_iff]
        exact h5
      · cases r
        simp_all
  · intro formula interim_keys
    rw [calcDeferred]
    exact List.length_map _ _

/-- C2 counterexample: a `get_object` lookup for an `AnalysisService` whose
primary query (`portal_type` + `title`) matches zero objects does not return
`None` — the keyword fallback finds the service whose `getKeyword` equals the
requested title and returns it. -/
theorem get_object_keyword_fallback_cex :
    contentFilterQuery
        [{ uid := "u1", portal_type := "AnalysisService", title := "Iron",
           getKeyword := "Fe" }] "AnalysisService" (some "Fe") Option.none = []
      ∧ get_object
        [{ uid := "u1", portal_type := "AnalysisService", title := "Iron",
           getKeyword := "Fe" }] "AnalysisService" "Fe" Option.none =
        (some { uid := "u1", portal_type := "AnalysisService", title := "Iron",
                getKeyword := "Fe" }, []) := by
  exact ⟨by decide, by decide⟩

/-- C2 (amended): a title lookup through `WorksheetImporter.get_object`
returns the object when the query matches exactly one object; on more than
one match it returns `None` and logs; on zero matches it returns `None` and
logs — except for portal type `AnalysisService`, where a fallback query on
`getKeyword = title` is issued first and its first result, if any, is
returned.  No case raises. -/
theorem get_object_amended (catalog : List CObj) (pt t : String)
    (ht : t ≠ "") :
    ((contentFilterQuery catalog pt (some t) Option.none).length = 1 →
      get_object catalog pt t Option.none =
        ((contentFilterQuery catalog pt (some t) Option.none).head?, []))
    ∧ ((contentFilterQuery catalog pt (some t) Option.none).length > 1 →
      get_object catalog pt t Option.none =
        (Option.none, ["More than one object found"]))
    ∧ ((contentFilterQuery catalog pt (some t) Option.none).length = 0 →
      pt ≠ "AnalysisService" →
      get_object catalog pt t Option.none =
        (Option.none, ["No objects found"]))
    ∧ ((contentFilterQuery catalog pt (some t) Option.none).length = 0 →
      pt = "AnalysisService" →
      get_object catalog pt t Option.none =
        (match (contentFilterQuery catalog pt Option.none (some t)).head? with
         | some b => (some b, [])
         | Option.none => (Option.none, ["No objects found"]))) := by
  have hcond : ¬ (t = "" ∧ (Option.none : Option String) = Option.none) := by
    intro hc
    exact ht hc.1
  have hite : (if t = "" then (Option.none : Option String) else some t)
      = some t := if_neg ht
  refine ⟨?_, ?_, ?_, ?_⟩
  · intro h1
    simp only [get_object, if_neg hcond, hite]
    rw [h1]
    norm_num
    exact fun hc => absurd hc ht
  · intro h1
    simp only [get_object, if_neg hcond, hite]
    rw [if_pos h1]
    simp [ht]
  · intro h0 hpt
    simp only [get_object, if_neg hcond, hite]
    rw [h0]
    norm_num
    rw [if_neg hpt]
    simp [ht]
  · intro h0 hpt
    simp only [get_object, if_neg hcond, hite]
    rw [h0]
    norm_num
    rw [if_pos hpt]
    simp [ht]

/-- C2 witness: the four behaviours of the title lookup at concrete
catalogs. -/
theorem get_object_amended_witness :
    get_object [{ uid := "u1", portal_type := "P", title := "T" }] "P" "T"
        Option.none
      = (some { uid := "u1", portal_type := "P", title := "T" }, [])
    ∧ get_object [{ uid := "u1", portal_type := "P", title := "T" },
        { uid := "u2", portal_type := "P", title := "T" }] "P" "T" Option.none
      = (Option.none, ["More than one object found"])
    ∧ get_object ([] : List CObj) "P" "T" Option.none
      = (Option.none, ["No objects found"])
    ∧ get_object [{ uid := "u3", portal_type := "AnalysisService",
                    title := "Iron", getKeyword := "Fe" }]
        "AnalysisService" "Fe" Option.none
      = (some { uid := "u3", portal_type := "AnalysisService",
                title := "Iron", getKeyword := "Fe" }, []) := by
  refine ⟨?_, ?_, ?_, ?_⟩
  · exact ((get_object_amended _ _ _ (by decide)).1 (by decide)).trans
      (by decide)
  · exact (get_object_amended _ _ _ (by decide)).2.1 (by decide)
  · exact (get_object_amended _ _ _ (by decide)).2.2.1 (by decide) (by decide)
  · exact ((get_object_amended _ _ _ (by decide)).2.2.2 (by decide)
      rfl).trans (by decide)

/-! Lemmas about `Sub_Groups` / `Attachment_Types` re-runs. -/

theorem getobj_append_left (folder l : List CObj) (pt : String)
    (attr : CObj → String) (v : String)
    (h : (getobj folder pt attr v).isSome = true) :
    (getobj (folder ++ l) pt attr v).isSome = true := by
  rw [getobj, List.find?_append]
  rw [getobj] at h
  cases hf : List.find? (fun o => o.portal_type == pt && attr o == v) folder with
  | none =>
    rw [hf] at h
    exact Bool.noConfusion h
  | some o => rfl

theorem subGroupsStep_preserves (folder : List CObj) (row : SubGroupRow)
    (t : String) (h : (getobj folder "SubGroup" CObj.title t).isSome = true) :
    (getobj (subGroupsStep folder row) "SubGroup" CObj.title t).isSome
      = true := by
  rw [subGroupsStep]
  by_cases h1 : row.title = ""
  · rw [if_pos h1]; exact h
  · rw [if_neg h1]
    by_cases h2 : (getobj folder "SubGroup" CObj.title row.title).isSome = true
    · rw [if_pos h2]; exact h
    · rw [if_neg h2]
      exact getobj_append_left _ _ _ _ _ h

theorem subGroupsStep_establishes (folder : List CObj) (row : SubGroupRow)
    (h : row.title ≠ "") :
    (getobj (subGroupsStep folder row) "SubGroup" CObj.title row.title).isSome
      = true := by
  rw [subGroupsStep, if_neg h]
  by_cases h2 : (getobj folder "SubGroup" CObj.title row.title).isSome = true
  · rw [if_pos h2]; exact h2
  · rw [if_neg h2]
    rw [getobj, List.find?_append]
    rw [getobj] at h2
    cases hf : List.find? (fun o => o.portal_type == "SubGroup"
        && o.title == row.title) folder with
    | some o =>
      rw [hf] at h2
      exact absurd rfl h2
    | none => simp [List.find?]

theorem subGroupsImport_preserves (rows : List SubGroupRow)
    (folder : List CObj) (t : String)
    (h : (getobj folder "SubGroup" CObj.title t).isSome = true) :
    (getobj (subGroupsImport folder rows) "SubGroup" CObj.title t).isSome
      = true := by
  induction rows generalizing folder with
  | nil => exact h
  | cons r rs ih =>
    rw [subGroupsImport, List.foldl_cons]
    exact ih _ (subGroupsStep_preserves _ _ _ h)

theorem subGroupsImport_establishes (rows : List SubGroupRow)
    (folder : List CObj) (r : SubGroupRow) (hr : r ∈ rows)
    (ht : r.title ≠ "") :
    (getobj (subGroupsImport folder rows) "SubGroup" CObj.title
      r.title).isSome = true := by
  induction rows generalizing folder with
  | nil => cases hr
  | cons a rs ih =>
    rw [subGroupsImport, List.foldl_cons]
    rcases List.mem_cons.mp hr with h | h
    · subst h
      exact subGroupsImport_preserves rs _ _
        (subGroupsStep_establishes _ _ ht)
    · exact ih _ h

theorem subGroupsImport_noop (rows : List SubGroupRow) (folder : List CObj)
    (h : ∀ r ∈ rows, r.title ≠ "" →
      (getobj folder "SubGroup" CObj.title r.title).isSome = true) :
    subGroupsImport folder rows = folder := by
  induction rows with
  | nil => rfl
  | cons a rs ih =>
    rw [subGroupsImport, List.foldl_cons]
    have hstep : subGroupsStep folder a = folder := by
      rw [subGroupsStep]
      by_cases h1 : a.title = ""
      · rw [if_pos h1]
      · rw [if_neg h1, if_pos (h a (List.mem_cons_self a rs) h1)]
    rw [hstep]
    exact ih (fun r hr => h r (List.mem_cons_of_mem a hr))

/-- C1 counterexample: running `Attachment_Types.Import` a second time on an
unchanged one-row sheet creates a second `AttachmentType` with the same
title — the claim promises zero new objects on the second run. -/
theorem attachmentTypes_second_run_duplicates :
    (attachmentTypesImport [] [{ title := "X", description := "" }]).length = 1
    ∧ (attachmentTypesImport
        (attachmentTypesImport [] [{ title := "X", description := "" }])
        [{ title := "X", description := "" }]).length = 2 := by
  exact ⟨rfl, rfl⟩

/-- C1 (amended): importers that look up the natural key before creating are
idempotent — a second `Sub_Groups.Import` run over the same rows leaves the
folder exactly as the first run left it — but not every entity importer
checks: `Attachment_Types.Import` creates one new `AttachmentType` for every
row with a non-empty title on every run, so a second run duplicates the
objects of the first. -/
theorem entity_importer_idempotence_amended :
    (∀ (folder : List CObj) (rows : List SubGroupRow),
      subGroupsImport (subGroupsImport folder rows) rows
        = subGroupsImport folder rows)
    ∧ (∀ (folder : List CObj) (rows : List AttachmentTypeRow),
      (attachmentTypesImport folder rows).length
        = folder.length + (rows.filter (fun r => !(r.title == ""))).length) := by
  constructor
  · intro folder rows
    exact subGroupsImport_noop rows _
      (fun r hr ht => subGroupsImport_establishes rows folder r hr ht)
  · intro folder rows
    induction rows generalizing folder with
    | nil => rfl
    | cons a rs ih =>
      rw [attachmentTypesImport, List.foldl_cons, List.filter_cons]
      by_cases h1 : a.title = ""
      · have hff : (!(a.title == "")) = false := by
          rw [h1]
          rfl
        rw [hff, if_neg Bool.false_ne_true]
        show (attachmentTypesImport (attachmentTypesStep folder a) rs).length
          = _
        have hstep : attachmentTypesStep folder a = folder := by
          rw [attachmentTypesStep, if_pos h1]
        rw [hstep]
        exact ih folder
      · have htt : (!(a.title == "")) = true := by
          rw [Bool.not_eq_eq_eq_not, Bool.not_true]
          exact beq_false_of_ne h1
        rw [htt, if_pos rfl]
        show (attachmentTypesImport (attachmentTypesStep folder a) rs).length
          = _
        rw [ih]
        have hstep : attachmentTypesStep folder a
            = folder ++ [{ uid := "", portal_type := "AttachmentType",
                           title := a.title,
                           description := a.description }] := by
          rw [attachmentTypesStep, if_neg h1]
        rw [hstep, List.length_append, List.length_cons]
        simp
        omega

/-- C5: an `Invoice Batches` row with any empty required field — title,
start date or end date — makes `Invoice_Batches.Import` raise an `Exception`
whose message names the missing field (the first empty one in the source's
check order title, start, end: `"InvoiceBatch has no Title"`,
`"InvoiceBatch has no Start Date"`, `"InvoiceBatch has no End Date"`), rows
before it being well-formed; and `WorksheetImporter.__call__` does not
swallow it — only `IOError` is caught — so the exception escapes the
importer and aborts the run. -/
theorem invoice_batches_abort (folder : List InvoiceBatchObj)
    (pre post : List InvoiceBatchRow) (row : InvoiceBatchRow)
    (hpre : ∀ r ∈ pre, r.title ≠ "" ∧ r.start ≠ "" ∧ r.«end» ≠ "")
    (h : row.title = "" ∨ row.start = "" ∨ row.«end» = "") :
    (invoiceBatchesImport folder (pre ++ row :: post)).snd
        = some (PyExc.Exception
            (if row.title = "" then "InvoiceBatch has no Title"
             else if row.start = "" then "InvoiceBatch has no Start Date"
             else "InvoiceBatch has no End Date"))
    ∧ (importerCall (invoiceBatchesImport folder (pre ++ row :: post))).snd
        = some (PyExc.Exception
            (if row.title = "" then "InvoiceBatch has no Title"
             else if row.start = "" then "InvoiceBatch has no Start Date"
             else "InvoiceBatch has no End Date")) := by
  have hrow : ∀ fld : List InvoiceBatchObj, importInvoiceRow fld row
      = (fld ++ [{ title := "", start := "", «end» := "" }],
         some (PyExc.Exception
           (if row.title = "" then "InvoiceBatch has no Title"
            else if row.start = "" then "InvoiceBatch has no Start Date"
            else "InvoiceBatch has no End Date"))) := by
    intro fld
    simp only [importInvoiceRow]
    by_cases h1 : row.title = ""
    · rw [if_pos h1, if_pos h1]
    · rw [if_neg h1, if_neg h1]
      by_cases h2 : row.start = ""
      · rw [if_pos h2, if_pos h2]
      · rw [if_neg h2, if_neg h2]
        rw [if_pos ((h.resolve_left h1).resolve_left h2)]
  have key : ∀ (p : List InvoiceBatchRow) (fld : List InvoiceBatchObj),
      (∀ r ∈ p, r.title ≠ "" ∧ r.start ≠ "" ∧ r.«end» ≠ "") →
      (invoiceBatchesImport fld (p ++ row :: post)).snd
        = some (PyExc.Exception
            (if row.title = "" then "InvoiceBatch has no Title"
             else if row.start = "" then "InvoiceBatch has no Start Date"
             else "InvoiceBatch has no End Date")) := by
    intro p
    induction p with
    | nil =>
      intro fld _
      rw [List.nil_append]
      simp only [invoiceBatchesImport]
      rw [hrow fld]
    | cons a ps ih =>
      intro fld hpre'
      obtain ⟨ha1, ha2, ha3⟩ := hpre' a (List.mem_cons_self a ps)
      have hrowa : importInvoiceRow fld a
          = (fld ++ [{ title := a.title, start := a.start,
                       «end» := a.«end» }], Option.none) := by
        simp only [importInvoiceRow]
        rw [if_neg ha1, if_neg ha2, if_neg ha3]
      rw [List.cons_append]
      simp only [invoiceBatchesImport]
      rw [hrowa]
      exact ih _ (fun r hr => hpre' r (List.mem_cons_of_mem a hr))
  have h1 := key pre folder hpre
  refine ⟨h1, ?_⟩
  rw [importerCall, h1]
  exact h1

/-- C5 witness: concrete one-row sheets with, in turn, an empty title, an
empty start date and an empty end date, each aborting with the message that
names the missing field. -/
theorem invoice_batches_abort_witness :
    (invoiceBatchesImport ([] : List InvoiceBatchObj)
        [{ title := "", start := "2021-01-01", «end» := "2021-01-31" }]).snd
      = some (PyExc.Exception "InvoiceBatch has no Title")
    ∧ (invoiceBatchesImport ([] : List InvoiceBatchObj)
        [{ title := "B1", start := "", «end» := "2021-01-31" }]).snd
      = some (PyExc.Exception "InvoiceBatch has no Start Date")
    ∧ (invoiceBatchesImport ([] : List InvoiceBatchObj)
        [{ title := "B1", start := "2021-01-01", «end» := "" }]).snd
      = some (PyExc.Exception "InvoiceBatch has no End Date")
    ∧ (importerCall (invoiceBatchesImport ([] : List InvoiceBatchObj)
        [{ title := "B1", start := "", «end» := "2021-01-31" }])).snd
      = some (PyExc.Exception "InvoiceBatch has no Start Date") := by
  refine ⟨?_, ?_, ?_, ?_⟩
  · exact ((invoice_batches_abort [] [] []
      { title := "", start := "2021-01-01", «end» := "2021-01-31" }
      (fun r hr => absurd hr (List.not_mem_nil r)) (Or.inl rfl)).1).trans
      (by decide)
  · exact ((invoice_batches_abort [] [] []
      { title := "B1", start := "", «end» := "2021-01-31" }
      (fun r hr => absurd hr (List.not_mem_nil r))
      (Or.inr (Or.inl rfl))).1).trans (by decide)
  · exact ((invoice_batches_abort [] [] []
      { title := "B1", start := "2021-01-01", «end» := "" }
      (fun r hr => absurd hr (List.not_mem_nil r))
      (Or.inr (Or.inr rfl))).1).trans (by decide)
  · exact ((invoice_batches_abort [] [] []
      { title := "B1", start := "", «end» := "2021-01-31" }
      (fun r hr => absurd hr (List.not_mem_nil r))
      (Or.inr (Or.inl rfl))).2).trans (by decide)

/-- C10: when a required field of an `Invoice Batches` row is empty, the new
`InvoiceBatch` object has already been created in the invoices folder before
the exception is raised — creation precedes validation, so the folder is not
left unchanged on this error path. -/
theorem invoice_batch_created_before_validation (folder : List InvoiceBatchObj)
    (row : InvoiceBatchRow)
    (h : row.title = "" ∨ row.start = "" ∨ row.«end» = "") :
    (importInvoiceRow folder row).fst
        = folder ++ [{ title := "", start := "", «end» := "" }]
    ∧ (importInvoiceRow folder row).snd.isSome = true := by
  simp only [importInvoiceRow]
  by_cases h1 : row.title = ""
  · rw [if_pos h1]
    exact ⟨rfl, rfl⟩
  · rw [if_neg h1]
    by_cases h2 : row.start = ""
    · rw [if_pos h2]
      exact ⟨rfl, rfl⟩
    · rw [if_neg h2]
      by_cases h3 : row.«end» = ""
      · rw [if_pos h3]
        exact ⟨rfl, rfl⟩
      · exact absurd ((h.resolve_left h1).resolve_left h2) h3

/-- C10 witness: a concrete row with empty start and end dates. -/
theorem invoice_batch_created_before_validation_witness :
    (importInvoiceRow ([] : List InvoiceBatchObj)
        { title := "B2", start := "", «end» := "" }).fst
      = [{ title := "", start := "", «end» := "" }]
    ∧ (importInvoiceRow ([] : List InvoiceBatchObj)
        { title := "B2", start := "", «end» := "" }).snd.isSome = true :=
  invoice_batch_created_before_validation []
    { title := "B2", start := "", «end» := "" } (Or.inr (Or.inl rfl))

/-! Lemmas about `get_relations`. -/

theorem mem_get_relations_go (catalog : List CObj)
    (obj_type service_title : String) (default_obj : Option CObj)
    (rows : List RelRow) (out : List CObj) (x : CObj) (hx : x ∈ out) :
    x ∈ get_relations_go catalog obj_type service_title default_obj rows
      out := by
  induction rows generalizing out with
  | nil => exact hx
  | cons row rest ih =>
    rw [get_relations_go]
    split
    next => exact hx
    next h1 =>
      split
      next h2 => exact ih _ hx
      next h2 =>
        split
        next obj hobj =>
          split
          next => exact ih _ hx
          next => exact ih _ (List.mem_append_left _ hx)
        next hobj => exact ih _ hx

theorem default_mem_get_relations (catalog : List CObj)
    (obj_type service_title : String) (d : CObj)
    (sheet : Option (List RelRow)) :
    d ∈ get_relations catalog obj_type service_title (some d) sheet := by
  simp only [get_relations]
  cases sheet with
  | none => exact List.mem_cons_self d []
  | some rows =>
    exact mem_get_relations_go _ _ _ _ _ _ _ (List.mem_cons_self d [])

/-- C6: in `Analysis_Services.Import`, a declared default instrument that
resolves in the instruments folder is always a member of the `Instruments`
list set on the service — also when the `AnalysisService Instruments` sheet
is absent or has no pairing for the service; `InstrumentEntryOfResults` is
true exactly when that list is non-empty; and `ManualEntryOfResults` is
forced to `True` whenever the list is empty. -/
theorem analysis_service_default_instrument (inst_folder catalog : List CObj)
    (sheet : Option (List RelRow)) (row_title default_title : String)
    (rowMER : CellVal) (d : CObj) :
    (getobj inst_folder "Instrument" CObj.title default_title = some d →
      d ∈ (serviceInstrumentFlags inst_folder catalog sheet row_title
        default_title rowMER).instruments)
    ∧ ((serviceInstrumentFlags inst_folder catalog sheet row_title
        default_title rowMER).instrumentEntryOfResults = true
      ↔ (serviceInstrumentFlags inst_folder catalog sheet row_title
        default_title rowMER).instruments ≠ [])
    ∧ ((serviceInstrumentFlags inst_folder catalog sheet row_title
        default_title rowMER).instruments = [] →
      (serviceInstrumentFlags inst_folder catalog sheet row_title
        default_title rowMER).manualEntryOfResults = CellVal.bool true) := by
  refine ⟨?_, ?_, ?_⟩
  · intro hd
    show d ∈ get_relations catalog "Instrument" row_title
      (getobj inst_folder "Instrument" CObj.title default_title) sheet
    rw [hd]
    exact default_mem_get_relations _ _ _ _ _
  · simp only [serviceInstrumentFlags]
    exact decide_eq_true_iff
  · intro h
    simp only [serviceInstrumentFlags] at h ⊢
    simp [h]

/-- C6 witness: with the relation sheet absent, the resolved default
instrument is in the list; with no default and no sheet, manual entry is
forced on. -/
theorem analysis_service_default_instrument_witness :
    ({ uid := "u1", portal_type := "Instrument", title := "HPLC" } : CObj)
      ∈ (serviceInstrumentFlags
          [{ uid := "u1", portal_type := "Instrument", title := "HPLC" }]
          [] Option.none "S" "HPLC" (CellVal.str "")).instruments
    ∧ (serviceInstrumentFlags ([] : List CObj) [] Option.none "S" "HPLC"
        (CellVal.str "")).manualEntryOfResults = CellVal.bool true := by
  constructor
  · exact (analysis_service_default_instrument
      [{ uid := "u1", portal_type := "Instrument", title := "HPLC" }]
      [] Option.none "S" "HPLC" (CellVal.str "")
      { uid := "u1", portal_type := "Instrument", title := "HPLC" }).1
      (by decide)
  · exact (analysis_service_default_instrument [] [] Option.none "S" "HPLC"
      (CellVal.str "")
      { uid := "u1", portal_type := "Instrument", title := "HPLC" }).2.2
      (by decide)

/-- C9: the UID set computed by `process_form` is the union of the selected
services and the dependencies of selected services; one settings entry is
recorded per service in the set, with `hidden` true exactly when the form's
`Hidden` value for that UID is `"on"`; and when the dependency function is
dependency-closed (as `getServiceDependencies` is, being recursive), the
stored set is closed under it. -/
theorem process_form_closure (deps : String → List String)
    (uids : List String) (hidden : List (String × String)) :
    (∀ u, u ∈ (process_form deps uids hidden).fst ↔
      (u ∈ uids ∨ ∃ t, t ∈ uids ∧ u ∈ deps t))
    ∧ (∀ u h2, (u, h2) ∈ (process_form deps uids hidden).snd ↔
      ((u ∈ uids ∨ ∃ t, t ∈ uids ∧ u ∈ deps t)
        ∧ h2 = (formHidden hidden u == "on")))
    ∧ ((∀ a b, b ∈ deps a → ∀ c ∈ deps b, c ∈ deps a) →
      ∀ u, u ∈ (process_form deps uids hidden).fst →
        ∀ v ∈ deps u, v ∈ (process_form deps uids hidden).fst) := by
  have hfst : ∀ u, u ∈ (process_form deps uids hidden).fst ↔
      (u ∈ uids ∨ ∃ t, t ∈ uids ∧ u ∈ deps t) := by
    intro u
    show u ∈ (uids ++ (uids.map deps).flatten).dedup ↔ _
    rw [List.mem_dedup, List.mem_append, List.mem_flatten]
    constructor
    · rintro (h | ⟨l, hl, hu⟩)
      · exact Or.inl h
      · rw [List.mem_map] at hl
        obtain ⟨t, ht, rfl⟩ := hl
        exact Or.inr ⟨t, ht, hu⟩
    · rintro (h | ⟨t, ht, hu⟩)
      · exact Or.inl h
      · exact Or.inr ⟨deps t, List.mem_map.mpr ⟨t, ht, rfl⟩, hu⟩
  refine ⟨hfst, ?_, ?_⟩
  · intro u h2
    show (u, h2) ∈ ((uids ++ (uids.map deps).flatten).dedup).map
      (fun x => (x, formHidden hidden x == "on")) ↔ _
    rw [List.mem_map]
    constructor
    · rintro ⟨x, hx, heq⟩
      rw [Prod.mk.injEq] at heq
      obtain ⟨rfl, rfl⟩ := heq
      exact ⟨(hfst x).mp hx, rfl⟩
    · rintro ⟨hm, rfl⟩
      exact ⟨u, (hfst u).mpr hm, rfl⟩
  · intro htrans u hu v hv
    rcases (hfst u).mp hu with h | ⟨t, ht, hut⟩
    · exact (hfst v).mpr (Or.inr ⟨u, h, hv⟩)
    · exact (hfst v).mpr (Or.inr ⟨t, ht, htrans t u hut v hv⟩)

/-- C9 witness: one selected service with one dependency. -/
theorem process_form_closure_witness :
    "B" ∈ (process_form (fun _ => ["B"]) ["A"] [("B", "on")]).fst
    ∧ ("B", true) ∈ (process_form (fun _ => ["B"]) ["A"] [("B", "on")]).snd
    ∧ "B" ∈ (process_form (fun _ => ["B"]) ["A"] [("B", "on")]).fst := by
  have h := process_form_closure (fun _ => ["B"]) ["A"] [("B", "on")]
  refine ⟨?_, ?_, ?_⟩
  · exact (h.1 "B").mpr (Or.inr ⟨"A", by decide, by decide⟩)
  · exact (h.2.1 "B" true).mpr ⟨Or.inr ⟨"A", by decide, by decide⟩, by decide⟩
  · exact h.2.2 (fun a b hb c hc => hc) "A"
      ((h.1 "A").mpr (Or.inl (by decide))) "B" (by decide)

end SetupData
